import Mathlib

/-!
Verification of the pyalgotrade Alpha Vantage acquisition pipeline
(`pyalgotrade/tools/alphavantage.py` and `pyalgotrade/barfeed/alphavantagefeed.py`)
against its natural-language specification.

The Python code is shallowly embedded: the filesystem is an explicit state
(association list of path ↦ contents), the HTTP transport, the file-write
outcome and the external CSV-to-bar parser are an environment of functions,
and exceptions are `Except` / explicit error components.
-/

namespace AlphaVantage

/-- Modelled from the spec: `pyalgotrade.bar.Frequency` (module `pyalgotrade/bar.py`
is not part of the sources). The spec gives an enumerated value with the total
order SECOND < MINUTE < HOUR < DAY < WEEK < MONTH < YEAR; `val` assigns ranks
realising that order, which is all `download_csv`'s comparisons use. -/
inductive Frequency where
  | second
  | minute
  | hour
  | day
  | week
  | month
  | year
deriving DecidableEq

/-- Rank of a frequency in the spec's total order. -/
def Frequency.val : Frequency → Nat
  | .second => 0
  | .minute => 1
  | .hour => 2
  | .day => 3
  | .week => 4
  | .month => 5
  | .year => 6

/-- `download_csv` (alphavantage.py lines 36-61): the query parameters built
for the vendor request, as an ordered association list mirroring the Python
dict assignments. -/
def download_csv_params (symbol : String) (frequency : Frequency) (apiKey : Option String) :
    List (String × String) :=
  let params := [("symbol", symbol), ("datatype", "csv"), ("outputsize", "full")]
  let params :=
    if frequency = Frequency.day then
      params ++ [("function", "TIME_SERIES_DAILY_ADJUSTED")]
    else if frequency = Frequency.week then
      params ++ [("function", "TIME_SERIES_WEEKLY_ADJUSTED")]
    else if frequency.val < Frequency.day.val then
      let params := params ++ [("function", "TIME_SERIES_INTRADAY")]
      if frequency = Frequency.hour then
        params ++ [("interval", "60min")]
      else if frequency = Frequency.minute then
        params ++ [("interval", "1min")]
      else
        params
    else
      params
  match apiKey with
  | some k => params ++ [("apikey", k)]
  | none => params ++ [("apikey", "demo")]

/-- The fixed vendor endpoint used by `download_csv`. -/
def queryUrl : String := "https://www.alphavantage.co/query"

/-- The content type `download_csv` expects from the vendor. -/
def expectedContentType : String := "application/x-download"

/-- A bar parsed from a CSV row; only the timestamp is relevant to the
pipeline's own logic (date-range filtering). -/
structure Bar where
  dateTime : Int
deriving DecidableEq

/-- Association-list update: set key `k` to `v`, overwriting an existing
binding (Python dict assignment semantics). -/
def assocSet {α : Type} (l : List (String × α)) (k : String) (v : α) :
    List (String × α) :=
  match l with
  | [] => [(k, v)]
  | (k0, v0) :: rest => if k0 = k then (k, v) :: rest else (k0, v0) :: assocSet rest k v

/-- The filesystem state: files (path ↦ contents) and existing directories. -/
structure FS where
  files : List (String × String)
  dirs : List String
deriving DecidableEq

/-- `os.path.exists` for files. -/
def FS.pathExists (fs : FS) (path : String) : Bool :=
  (fs.files.lookup path).isSome

/-- `open(path, "w"); f.write(contents)`: create or fully overwrite. -/
def FS.write (fs : FS) (path contents : String) : FS :=
  { fs with files := assocSet fs.files path contents }

/-- The external collaborators of the pipeline: the HTTP transport
(`csvutils.download_csv`, returning the CSV body or raising), the outcome of
opening/writing a cache file (`none` = success, `some e` = the OSError
raised), and the external CSV-to-bar parser driven by
`GenericBarFeed.addBarsFromCSV` (given the feed's column names, the
skipMalformedBars flag and the file contents). -/
structure Env where
  http : String → List (String × String) → String → Except String String
  writeFails : String → Option String
  parseCSV : List (String × Option String) → Bool → String → Except String (List Bar)

/-- `download_csv` (alphavantage.py lines 36-61): build the parameters and
perform the HTTP request through `csvutils.download_csv`. -/
def download_csv (env : Env) (symbol : String) (frequency : Frequency)
    (apiKey : Option String) : Except String String :=
  env.http queryUrl (download_csv_params symbol frequency apiKey) expectedContentType

/-- `download_daily_bars` (alphavantage.py lines 64-78): download the full
daily history, then open the cache file and write the body. Returns the
resulting filesystem and the exception, if one was raised. -/
def download_daily_bars (env : Env) (symbol csvFile : String) (apiKey : Option String)
    (fs : FS) : FS × Option String :=
  match download_csv env symbol Frequency.day apiKey with
  | Except.error e => (fs, some e)
  | Except.ok bars =>
    match env.writeFails csvFile with
    | some e => (fs, some e)
    | none => (fs.write csvFile bars, none)

/-- `download_weekly_bars` (alphavantage.py lines 81-97). -/
def download_weekly_bars (env : Env) (symbol csvFile : String) (apiKey : Option String)
    (fs : FS) : FS × Option String :=
  match download_csv env symbol Frequency.week apiKey with
  | Except.error e => (fs, some e)
  | Except.ok bars =>
    match env.writeFails csvFile with
    | some e => (fs, some e)
    | none => (fs.write csvFile bars, none)

/-- `download_intradays_bars` (alphavantage.py lines 99-115). -/
def download_intradays_bars (env : Env) (symbol csvFile : String) (frequency : Frequency)
    (apiKey : Option String) (fs : FS) : FS × Option String :=
  match download_csv env symbol frequency apiKey with
  | Except.error e => (fs, some e)
  | Except.ok bars =>
    match env.writeFails csvFile with
    | some e => (fs, some e)
    | none => (fs.write csvFile bars, none)

/-- The feed object (`alphavantagefeed.Feed`, a `csvfeed.GenericBarFeed`).
Only the state the pipeline manipulates is kept: the frequency, the datetime
format, the logical-key ↦ CSV-header column map (`some h` = header `h`,
`none` = the explicit absent marker), the optional date-range filter, and the
bars registered per symbol. The container internals of `GenericBarFeed`
(not part of the sources) are modelled from the spec. -/
structure Feed where
  frequency : Frequency
  dateTimeFormat : String
  columnNames : List (String × Option String)
  barFilter : Option (Int × Int)
  bars : List (String × List Bar)
deriving DecidableEq

/-- Modelled from the spec: `GenericBarFeed.setColumnName` overrides the header
for one logical key for the lifetime of the feed instance. -/
def Feed.setColumnName (feed : Feed) (key : String) (name : Option String) : Feed :=
  { feed with columnNames := assocSet feed.columnNames key name }

/-- Modelled from the spec: `GenericBarFeed.setDateTimeFormat`. -/
def Feed.setDateTimeFormat (feed : Feed) (fmt : String) : Feed :=
  { feed with dateTimeFormat := fmt }

/-- `alphavantagefeed.Feed.__init__` (alphavantagefeed.py lines 44-61):
reject any frequency outside [DAY, WEEK] with `Exception("Invalid frequency")`,
then install the datetime format and the default column names, the
adjusted-close header depending on the frequency. -/
def Feed.init (frequency : Frequency) : Except String Feed :=
  if frequency = Frequency.day ∨ frequency = Frequency.week then
    let f : Feed :=
      { frequency := frequency, dateTimeFormat := "", columnNames := [],
        barFilter := none, bars := [] }
    let f := f.setDateTimeFormat "%Y-%m-%d"
    let f := f.setColumnName "datetime" (some "timestamp")
    let f := f.setColumnName "open" (some "open")
    let f := f.setColumnName "high" (some "high")
    let f := f.setColumnName "low" (some "low")
    let f := f.setColumnName "close" (some "close")
    let f := f.setColumnName "volume" (some "volume")
    let f :=
      if frequency = Frequency.day then
        f.setColumnName "adj_close" (some "adjusted_close")
      else if frequency = Frequency.week then
        f.setColumnName "adj_close" (some "adjusted close")
      else
        f
    Except.ok f
  else
    Except.error "Invalid frequency"

/-- Modelled from the spec: `csvfeed.DateRangeFilter` keeps a bar iff its
timestamp lies in the inclusive range [fromDate, toDate]; with no filter
installed every bar is kept. -/
def applyBarFilter : Option (Int × Int) → List Bar → List Bar
  | none, bars => bars
  | some (f, t), bars => bars.filter (fun b => decide (f ≤ b.dateTime ∧ b.dateTime ≤ t))

/-- `ret.setBarFilter(csvfeed.DateRangeFilter(fromDate=..., toDate=...))` as
guarded by `build_feed` (alphavantage.py lines 163-164): the filter is
installed only when both bounds are given. -/
def setDateFilter (ret : Feed) (fromDate toDate : Option Int) : Feed :=
  match fromDate, toDate with
  | some f, some t => { ret with barFilter := some (f, t) }
  | _, _ => ret

/-- Modelled from the spec: `GenericBarFeed.addBarsFromCSV` reads the file and
hands it to the external CSV-to-bar parser configured with the feed's column
names and `skipMalformedBars`; parsed bars pass through the installed bar
filter and are registered under the symbol. -/
def Feed.addBarsFromCSV (env : Env) (feed : Feed) (symbol fileName : String)
    (skipMalformedBars : Bool) (fs : FS) : Except String Feed :=
  match fs.files.lookup fileName with
  | none => Except.error "No such file or directory"
  | some contents =>
    match env.parseCSV feed.columnNames skipMalformedBars contents with
    | Except.error e => Except.error e
    | Except.ok bars =>
      Except.ok { feed with bars := feed.bars ++ [(symbol, applyBarFilter feed.barFilter bars)] }

/-- The cache file path resolved inside `build_feed`'s loop
(alphavantage.py line 176): `os.path.join(storage, "%s-alphavantage.csv" % symbol)`. -/
def build_feed_fileName (storage symbol : String) : String :=
  storage ++ "/" ++ symbol ++ "-alphavantage.csv"

/-- The cache file path resolved by the CLI utility `main`
(alphavantage.py line 215): `os.path.join(storage, "%s-alpha-vantage.csv" % symbol)`. -/
def main_fileName (storage symbol : String) : String :=
  storage ++ "/" ++ symbol ++ "-alpha-vantage.csv"

/-- Outcome of the `try` block of `build_feed`'s loop: the filesystem after
its side effects, the number of HTTP requests it issued, and the exception
it raised, if any. -/
structure TryResult where
  fs : FS
  calls : Nat
  err : Option String
deriving DecidableEq

/-- The body of the `try` block in `build_feed` (alphavantage.py lines
180-186), statement by statement. Note the first `if` is not an `elif`:
after a successful daily download for frequency DAY, control still reaches
the `else` branch, whose `assert frequency == bar.Frequency.WEEK` fails. -/
def build_feed_try_block (env : Env) (symbol fileName : String) (frequency : Frequency)
    (apiKey : Option String) (fs : FS) : TryResult :=
  let s1 : TryResult :=
    if frequency = Frequency.day then
      match download_daily_bars env symbol fileName apiKey fs with
      | (fs1, err) => ⟨fs1, 1, err⟩
    else
      ⟨fs, 0, none⟩
  match s1.err with
  | some e => ⟨s1.fs, s1.calls, some e⟩
  | none =>
    if frequency = Frequency.hour ∨ frequency = Frequency.minute then
      match download_intradays_bars env symbol fileName frequency apiKey s1.fs with
      | (fs2, err) => ⟨fs2, s1.calls + 1, err⟩
    else
      if frequency = Frequency.week then
        match download_weekly_bars env symbol fileName apiKey s1.fs with
        | (fs2, err) => ⟨fs2, s1.calls + 1, err⟩
      else
        ⟨s1.fs, s1.calls, some "Invalid frequency"⟩

instance instDecEqExcept {ε α : Type} [DecidableEq ε] [DecidableEq α] :
    DecidableEq (Except ε α) := fun a b =>
  match a, b with
  | Except.error e1, Except.error e2 =>
    if h : e1 = e2 then isTrue (by rw [h]) else isFalse (by intro hc; cases hc; exact h rfl)
  | Except.ok x, Except.ok y =>
    if h : x = y then isTrue (by rw [h]) else isFalse (by intro hc; cases hc; exact h rfl)
  | Except.error e1, Except.ok y => isFalse (by intro hc; cases hc)
  | Except.ok x, Except.error e2 => isFalse (by intro hc; cases hc)

/-- Result of one `build_feed` invocation: the final filesystem, the number
of HTTP requests issued, and either the feed or the exception that
propagated out. -/
structure BuildResult where
  fs : FS
  calls : Nat
  result : Except String Feed
deriving DecidableEq

/-- The per-symbol loop of `build_feed` (alphavantage.py lines 174-193):
resolve the cache path; download when the file is absent or `forceDownload`
is set; a download-phase exception is logged-and-skipped under
`skipErrors=True` and re-raised otherwise; `addBarsFromCSV` runs outside the
`try` block, so its exceptions always propagate. -/
def build_feed_loop (env : Env) (storage : String) (frequency : Frequency)
    (skipErrors : Bool) (apiKey : Option String) (forceDownload skipMalformedBars : Bool)
    (ret : Feed) (fs : FS) (calls : Nat) : List String → BuildResult
  | [] => ⟨fs, calls, Except.ok ret⟩
  | symbol :: rest =>
    let fileName := build_feed_fileName storage symbol
    let step : TryResult :=
      if !fs.pathExists fileName || forceDownload then
        build_feed_try_block env symbol fileName frequency apiKey fs
      else
        ⟨fs, 0, none⟩
    match step.err with
    | some e =>
      if skipErrors then
        build_feed_loop env storage frequency skipErrors apiKey forceDownload
          skipMalformedBars ret step.fs (calls + step.calls) rest
      else
        ⟨step.fs, calls + step.calls, Except.error e⟩
    | none =>
      match Feed.addBarsFromCSV env ret symbol fileName skipMalformedBars step.fs with
      | Except.error e => ⟨step.fs, calls + step.calls, Except.error e⟩
      | Except.ok ret1 =>
        build_feed_loop env storage frequency skipErrors apiKey forceDownload
          skipMalformedBars ret1 step.fs (calls + step.calls) rest

/-- `build_feed` (alphavantage.py lines 118-194): construct the feed object
(which validates the frequency), install the date-range filter when both
bounds are given, apply the column-name overrides, create the storage
directory if absent, then run the per-symbol loop. -/
def build_feed (env : Env) (symbols : List String) (storage : String)
    (fromDate toDate : Option Int) (frequency : Frequency) (skipErrors : Bool)
    (apiKey : Option String) (columnNames : List (String × Option String))
    (forceDownload skipMalformedBars : Bool) (fs : FS) : BuildResult :=
  match Feed.init frequency with
  | Except.error e => ⟨fs, 0, Except.error e⟩
  | Except.ok ret0 =>
    let ret1 := setDateFilter ret0 fromDate toDate
    let ret2 := columnNames.foldl (fun r c => r.setColumnName c.1 c.2) ret1
    let fs1 := if fs.dirs.contains storage then fs else { fs with dirs := storage :: fs.dirs }
    build_feed_loop env storage frequency skipErrors apiKey forceDownload
      skipMalformedBars ret2 fs1 0 symbols

/-- A benign environment: every HTTP request succeeds with a fixed CSV body,
every file write succeeds, and the parser accepts every file. -/
def envOK : Env :=
  { http := fun _ _ _ => Except.ok "csv-bytes"
    writeFails := fun _ => none
    parseCSV := fun _ _ _ => Except.ok [⟨100⟩, ⟨200⟩] }

/-- The empty filesystem. -/
def fs0 : FS := ⟨[], []⟩

/-- An environment whose HTTP transport always fails (the vendor answered
with a JSON error body, so `csvutils.download_csv` raises on the content
type). -/
def envHttpFail : Env :=
  { http := fun _ _ _ => Except.error "Invalid content-type: application/json"
    writeFails := fun _ => none
    parseCSV := fun _ _ _ => Except.ok [] }

/-- An environment where downloads succeed but the CSV-to-bar parser always
raises on the cached file. -/
def envParseFail : Env :=
  { http := fun _ _ _ => Except.ok "csv-bytes"
    writeFails := fun _ => none
    parseCSV := fun _ _ _ => Except.error "Malformed CSV row" }

/-- An environment where downloads succeed but opening the cache file for
writing raises an OSError. -/
def envWriteFail : Env :=
  { http := fun _ _ _ => Except.ok "csv-bytes"
    writeFails := fun _ => some "Permission denied"
    parseCSV := fun _ _ _ => Except.ok [] }

/-- A plain feed value used to exercise the per-symbol loop. -/
def feed0 : Feed := ⟨Frequency.week, "%Y-%m-%d", [], none, []⟩

/-- A filesystem already holding the cache file for symbol "X" under
storage root "data". -/
def fsX : FS := ⟨[("data/X-alphavantage.csv", "csv-bytes")], ["data"]⟩

end AlphaVantage

namespace AlphaVantage

/-- C5: for every symbol and apiKey, `download_csv` builds exactly the
request parameters symbol, datatype=csv, outputsize=full, apikey (the
caller's key, or the literal "demo" when none is supplied), plus
function=TIME_SERIES_DAILY_ADJUSTED for DAY,
function=TIME_SERIES_WEEKLY_ADJUSTED for WEEK,
function=TIME_SERIES_INTRADAY with interval=60min for HOUR and with
interval=1min for MINUTE. -/
theorem C5_request_parameters (symbol : String) (apiKey : Option String) :
    download_csv_params symbol Frequency.day apiKey =
      [("symbol", symbol), ("datatype", "csv"), ("outputsize", "full"),
       ("function", "TIME_SERIES_DAILY_ADJUSTED"), ("apikey", apiKey.getD "demo")] ∧
    download_csv_params symbol Frequency.week apiKey =
      [("symbol", symbol), ("datatype", "csv"), ("outputsize", "full"),
       ("function", "TIME_SERIES_WEEKLY_ADJUSTED"), ("apikey", apiKey.getD "demo")] ∧
    download_csv_params symbol Frequency.hour apiKey =
      [("symbol", symbol), ("datatype", "csv"), ("outputsize", "full"),
       ("function", "TIME_SERIES_INTRADAY"), ("interval", "60min"),
       ("apikey", apiKey.getD "demo")] ∧
    download_csv_params symbol Frequency.minute apiKey =
      [("symbol", symbol), ("datatype", "csv"), ("outputsize", "full"),
       ("function", "TIME_SERIES_INTRADAY"), ("interval", "1min"),
       ("apikey", apiKey.getD "demo")] := by
  cases apiKey <;> exact ⟨rfl, rfl, rfl, rfl⟩

/-- C7: a feed constructed with frequency DAY and no overrides maps the
`adj_close` logical key to the CSV header "adjusted_close", with frequency
WEEK to "adjusted close"; the two defaults have the same length and differ
in exactly one character, the underscore/space at index 8. -/
theorem C7_adjusted_close_defaults :
    (Feed.init Frequency.day).toOption.bind (fun f => f.columnNames.lookup "adj_close") =
      some (some "adjusted_close") ∧
    (Feed.init Frequency.week).toOption.bind (fun f => f.columnNames.lookup "adj_close") =
      some (some "adjusted close") ∧
    "adjusted_close".length = "adjusted close".length ∧
    (List.zip "adjusted_close".data "adjusted close".data).countP
      (fun p => decide (p.1 ≠ p.2)) = 1 ∧
    "adjusted_close".data.get? 8 = some '_' ∧
    "adjusted close".data.get? 8 = some ' ' := by
  exact ⟨by decide, by decide, by decide, by decide, by decide, by decide⟩

/-- C8 counterexample: for the same storage root and symbol, the batch
builder `build_feed` and the CLI utility `main` resolve DIFFERENT cache
files — the claim that a single fixed vendor source tag makes them agree is
false. -/
theorem C8_counterexample :
    build_feed_fileName "data" "ORCL" = "data/ORCL-alphavantage.csv" ∧
    main_fileName "data" "ORCL" = "data/ORCL-alpha-vantage.csv" ∧
    build_feed_fileName "data" "ORCL" ≠ main_fileName "data" "ORCL" := by
  exact ⟨by decide, by decide, by decide⟩

/-- C8 amended: each resolver is deterministic from the storage root and the
symbol alone (no frequency in the name), but `build_feed` uses the source
tag "alphavantage" while the CLI `main` uses "alpha-vantage", so for every
storage root and symbol they resolve to different files. -/
theorem C8_cache_path_two_tags (storage symbol : String) :
    build_feed_fileName storage symbol =
      storage ++ "/" ++ symbol ++ "-alphavantage.csv" ∧
    main_fileName storage symbol =
      storage ++ "/" ++ symbol ++ "-alpha-vantage.csv" ∧
    build_feed_fileName storage symbol ≠ main_fileName storage symbol := by
  refine ⟨rfl, rfl, ?_⟩
  intro h
  have hl := congrArg String.length h
  simp only [build_feed_fileName, main_fileName, String.length_append,
    show "-alphavantage.csv".length = 17 from rfl,
    show "-alpha-vantage.csv".length = 18 from rfl] at hl
  omega

/-- C9: if the HTTP fetch raises, `download_daily_bars` and
`download_weekly_bars` re-raise without touching the filesystem: the cache
file is not created and a pre-existing file is left unchanged, because the
body is obtained in memory before the file is ever opened. -/
theorem C9_failed_download_leaves_cache_untouched
    (env : Env) (symbol csvFile : String) (apiKey : Option String) (fs : FS) (e1 e2 : String)
    (h1 : env.http queryUrl (download_csv_params symbol Frequency.day apiKey)
            expectedContentType = Except.error e1)
    (h2 : env.http queryUrl (download_csv_params symbol Frequency.week apiKey)
            expectedContentType = Except.error e2) :
    download_daily_bars env symbol csvFile apiKey fs = (fs, some e1) ∧
    download_weekly_bars env symbol csvFile apiKey fs = (fs, some e2) ∧
    (download_daily_bars env symbol csvFile apiKey fs).1.files.lookup csvFile =
      fs.files.lookup csvFile := by
  refine ⟨?_, ?_, ?_⟩ <;>
    simp [download_daily_bars, download_weekly_bars, download_csv, h1, h2]

/-- C9 witness. -/
theorem C9_failed_download_leaves_cache_untouched_witness :
    download_daily_bars envHttpFail "ORCL" "data/f.csv" none fs0 =
      (fs0, some "Invalid content-type: application/json") ∧
    download_weekly_bars envHttpFail "ORCL" "data/f.csv" none fs0 =
      (fs0, some "Invalid content-type: application/json") :=
  ⟨(C9_failed_download_leaves_cache_untouched envHttpFail "ORCL" "data/f.csv" none fs0
      _ _ rfl rfl).1,
   (C9_failed_download_leaves_cache_untouched envHttpFail "ORCL" "data/f.csv" none fs0
      _ _ rfl rfl).2.1⟩

/-- C10: when exactly one of fromDate and toDate is given, `build_feed`
installs no date-range filter at all: `setDateFilter` leaves the feed
unchanged, a freshly constructed feed has no filter, and with no filter
every parsed bar is registered in the feed unfiltered. -/
theorem C10_single_bound_installs_no_filter
    (ret : Feed) (fromDate toDate : Option Int) (bars : List Bar)
    (h : (fromDate = none ∧ toDate ≠ none) ∨ (fromDate ≠ none ∧ toDate = none)) :
    setDateFilter ret fromDate toDate = ret ∧
    applyBarFilter none bars = bars ∧
    (∀ (fq : Frequency) (fd : Feed), Feed.init fq = Except.ok fd → fd.barFilter = none) ∧
    (∀ (env : Env) (feed : Feed) (symbol fileName : String) (skip : Bool) (fs : FS)
       (c : String) (parsed : List Bar),
       feed.barFilter = none →
       fs.files.lookup fileName = some c →
       env.parseCSV feed.columnNames skip c = Except.ok parsed →
       Feed.addBarsFromCSV env feed symbol fileName skip fs =
         Except.ok { feed with bars := feed.bars ++ [(symbol, parsed)] }) := by
  refine ⟨?_, rfl, ?_, ?_⟩
  · rcases h with ⟨h1, h2⟩ | ⟨h1, h2⟩
    · subst h1; cases toDate <;> rfl
    · subst h2; cases fromDate <;> rfl
  · intro fq fd hinit
    cases fq <;> simp [Feed.init, Feed.setColumnName, Feed.setDateTimeFormat] at hinit <;>
      subst hinit <;> rfl
  · intro env feed symbol fileName skip fs c parsed hfil hread hparse
    simp [Feed.addBarsFromCSV, hread, hparse, hfil, applyBarFilter]

/-- C10 witness. -/
theorem C10_single_bound_installs_no_filter_witness :
    setDateFilter ⟨Frequency.day, "x", [], none, []⟩ (some 5) none =
      ⟨Frequency.day, "x", [], none, []⟩ :=
  (C10_single_bound_installs_no_filter ⟨Frequency.day, "x", [], none, []⟩ (some 5) none []
    (Or.inr ⟨by simp, rfl⟩)).1

/-- C1: the claimed happy path is broken by the code. With a benign
environment (every download succeeds, every write succeeds, the parser
accepts everything), `build_feed` with frequency DAY, `skipErrors=False`
and an empty storage root downloads the first symbol, writes its cache
file, and then raises `AssertionError("Invalid frequency")`: line 182's
`if` is not an `elif`, so after the daily download the `else` branch runs
and its `assert frequency == bar.Frequency.WEEK` fails. No feed is ever
returned. -/
theorem C1_day_build_feed_raises :
    (build_feed envOK ["ORCL"] "data" none none Frequency.day false none [] false false
        fs0).result = Except.error "Invalid frequency" ∧
    (build_feed envOK ["ORCL"] "data" none none Frequency.day false none [] false false
        fs0).calls = 1 ∧
    (build_feed envOK ["ORCL"] "data" none none Frequency.day false none [] false false
        fs0).fs.pathExists "data/ORCL-alphavantage.csv" = true := by
  exact ⟨by decide, by decide, by decide⟩

/-- C2 counterexample: the claim says feed construction succeeds for
MINUTE (and HOUR); in the code `Feed.__init__` rejects every frequency
outside [DAY, WEEK], exactly as the repository's own
`testInvalidFrequency` expects. -/
theorem C2_counterexample :
    Feed.init Frequency.minute = Except.error "Invalid frequency" ∧
    Feed.init Frequency.hour = Except.error "Invalid frequency" := by
  exact ⟨by decide, by decide⟩

/-- C2 amended: feed construction succeeds exactly for DAY and WEEK; for
every other frequency (HOUR and MINUTE included) it fails with the
invalid-frequency error, and `build_feed` propagates that error before any
network call is attempted (zero HTTP requests, filesystem untouched). -/
theorem C2_frequency_validation (f : Frequency) :
    ((Feed.init f).isOk = true ↔ (f = Frequency.day ∨ f = Frequency.week)) ∧
    (∀ (env : Env) (symbols : List String) (storage : String) (fromDate toDate : Option Int)
       (skipErrors : Bool) (apiKey : Option String)
       (columnNames : List (String × Option String)) (forceDownload smb : Bool) (fs : FS),
       f ≠ Frequency.day → f ≠ Frequency.week →
       build_feed env symbols storage fromDate toDate f skipErrors apiKey columnNames
         forceDownload smb fs = ⟨fs, 0, Except.error "Invalid frequency"⟩) := by
  constructor
  · cases f <;> decide
  · intro env symbols storage fromDate toDate skipErrors apiKey columnNames forceDownload
      smb fs hd hw
    have hinit : Feed.init f = Except.error "Invalid frequency" := by
      unfold Feed.init
      rw [if_neg]
      rintro (h | h)
      · exact hd h
      · exact hw h
    simp [build_feed, hinit]

/-- C2 witness. -/
theorem C2_frequency_validation_witness :
    build_feed envOK ["A"] "d" none none Frequency.hour false none [] false false fs0 =
      ⟨fs0, 0, Except.error "Invalid frequency"⟩ :=
  (C2_frequency_validation Frequency.hour).2 envOK ["A"] "d" none none false none [] false
    false fs0 (by decide) (by decide)

/-- C3 counterexample: with `skipErrors=True`, a failure while parsing the
cached file still propagates out of `build_feed` — `addBarsFromCSV` sits
outside the `try` block, so the claim that parse failures are
skipped-and-logged is false. -/
theorem C3_counterexample :
    (build_feed envParseFail ["X"] "data" none none Frequency.week true none [] false false
        fs0).result = Except.error "Malformed CSV row" := by
  decide

/-- C3 amended: the `skipErrors` flag governs only download-phase failures.
A download-phase exception with `skipErrors=True` is skipped (the batch
result is that of the remaining symbols; the skipped symbol is absent) and
with `skipErrors=False` aborts the batch with that error; a failure while
parsing the cached file always aborts the batch, whatever `skipErrors` is. -/
theorem C3_skipErrors_governs_download_only
    (env : Env) (storage : String) (frequency : Frequency) (apiKey : Option String)
    (forceDownload smb : Bool) (ret : Feed) (fs : FS) (calls n : Nat)
    (s : String) (rest : List String) (e : String) :
    (build_feed_try_block env s (build_feed_fileName storage s) frequency apiKey fs =
        ⟨fs, n, some e⟩ →
      fs.pathExists (build_feed_fileName storage s) = false →
      (build_feed_loop env storage frequency true apiKey forceDownload smb ret fs calls
          (s :: rest) =
        build_feed_loop env storage frequency true apiKey forceDownload smb ret fs
          (calls + n) rest ∧
       build_feed_loop env storage frequency false apiKey forceDownload smb ret fs calls
          (s :: rest) = ⟨fs, calls + n, Except.error e⟩)) ∧
    (∀ skipErrors : Bool,
      fs.pathExists (build_feed_fileName storage s) = true →
      Feed.addBarsFromCSV env ret s (build_feed_fileName storage s) smb fs =
        Except.error e →
      build_feed_loop env storage frequency skipErrors apiKey false smb ret fs calls
        (s :: rest) = ⟨fs, calls, Except.error e⟩) := by
  constructor
  · intro htry habs
    constructor <;> simp [build_feed_loop, habs, htry]
  · intro skipErrors hcache haddb
    simp [build_feed_loop, hcache, haddb]

/-- C3 witness. -/
theorem C3_skipErrors_governs_download_only_witness :
    (build_feed_loop envHttpFail "data" Frequency.week true none false false feed0 fs0 0
        ["X"] =
      build_feed_loop envHttpFail "data" Frequency.week true none false false feed0 fs0
        (0 + 1) []) ∧
    (build_feed_loop envHttpFail "data" Frequency.week false none false false feed0 fs0 0
        ["X"] =
      ⟨fs0, 0 + 1, Except.error "Invalid content-type: application/json"⟩) ∧
    (build_feed_loop envParseFail "data" Frequency.week true none false false feed0 fsX 0
        ["X"] = ⟨fsX, 0, Except.error "Malformed CSV row"⟩) :=
  ⟨((C3_skipErrors_governs_download_only envHttpFail "data" Frequency.week none false false
      feed0 fs0 0 1 "X" [] "Invalid content-type: application/json").1 (by decide)
      (by decide)).1,
   ((C3_skipErrors_governs_download_only envHttpFail "data" Frequency.week none false false
      feed0 fs0 0 1 "X" [] "Invalid content-type: application/json").1 (by decide)
      (by decide)).2,
   (C3_skipErrors_governs_download_only envParseFail "data" Frequency.week none false false
      feed0 fsX 0 0 "X" [] "Malformed CSV row").2 true (by decide) (by decide)⟩

/-- C4 counterexample: with `skipErrors=True`, a failure to write the
downloaded bytes to the cache file does NOT propagate out of `build_feed`:
the write happens inside the `try` block, whose `except Exception` catches
it, so the batch completes with the symbol skipped. -/
theorem C4_counterexample :
    (build_feed envWriteFail ["X"] "data" none none Frequency.week true none [] false false
        fs0).result.isOk = true ∧
    (build_feed envWriteFail ["X"] "data" none none Frequency.week true none [] false false
        fs0).fs.pathExists "data/X-alphavantage.csv" = false := by
  exact ⟨by decide, by decide⟩

/-- C4 amended: a failure to write the downloaded bytes to the cache file is
governed by `skipErrors` like any other per-symbol error: with
`skipErrors=True` the symbol is skipped and the batch continues, with
`skipErrors=False` the error propagates and aborts the batch. -/
theorem C4_write_failure_subject_to_skipErrors
    (env : Env) (storage : String) (apiKey : Option String) (smb : Bool)
    (ret : Feed) (fs : FS) (calls : Nat) (s : String) (rest : List String) (body we : String)
    (hhttp : env.http queryUrl (download_csv_params s Frequency.week apiKey)
        expectedContentType = Except.ok body)
    (hw : env.writeFails (build_feed_fileName storage s) = some we)
    (habs : fs.pathExists (build_feed_fileName storage s) = false) :
    build_feed_try_block env s (build_feed_fileName storage s) Frequency.week apiKey fs =
      ⟨fs, 1, some we⟩ ∧
    build_feed_loop env storage Frequency.week true apiKey false smb ret fs calls
        (s :: rest) =
      build_feed_loop env storage Frequency.week true apiKey false smb ret fs (calls + 1)
        rest ∧
    build_feed_loop env storage Frequency.week false apiKey false smb ret fs calls
        (s :: rest) = ⟨fs, calls + 1, Except.error we⟩ := by
  have htry : build_feed_try_block env s (build_feed_fileName storage s) Frequency.week
      apiKey fs = ⟨fs, 1, some we⟩ := by
    simp [build_feed_try_block, download_weekly_bars, download_csv, hhttp, hw]
  refine ⟨htry, ?_, ?_⟩ <;> simp [build_feed_loop, habs, htry]

/-- C4 witness. -/
theorem C4_write_failure_subject_to_skipErrors_witness :
    (build_feed_loop envWriteFail "data" Frequency.week true none false false feed0 fs0 0
        ["X"] =
      build_feed_loop envWriteFail "data" Frequency.week true none false false feed0 fs0
        (0 + 1) []) ∧
    (build_feed_loop envWriteFail "data" Frequency.week false none false false feed0 fs0 0
        ["X"] = ⟨fs0, 0 + 1, Except.error "Permission denied"⟩) :=
  ⟨(C4_write_failure_subject_to_skipErrors envWriteFail "data" none false feed0 fs0 0 "X"
      [] "csv-bytes" "Permission denied" rfl rfl (by decide)).2.1,
   (C4_write_failure_subject_to_skipErrors envWriteFail "data" none false feed0 fs0 0 "X"
      [] "csv-bytes" "Permission denied" rfl rfl (by decide)).2.2⟩

end AlphaVantage

namespace AlphaVantage

theorem beq_of_eq_str {p k : String} (h : p = k) : (p == k) = true := by
  subst h; simp

theorem beq_false_of_ne_str {p k : String} (h : ¬p = k) : (p == k) = false := by
  simpa using h

theorem assocSet_lookup {α : Type} (l : List (String × α)) (k p : String) (v : α) :
    (assocSet l k v).lookup p = if p = k then some v else l.lookup p := by
  induction l with
  | nil =>
    by_cases hp : p = k <;>
      simp [assocSet, List.lookup, hp, beq_of_eq_str, beq_false_of_ne_str]
  | cons hd tl ih =>
    rcases hd with ⟨k0, v0⟩
    by_cases h0 : k0 = k
    · subst h0
      by_cases hp : p = k0 <;>
        simp [assocSet, List.lookup, hp, beq_of_eq_str, beq_false_of_ne_str]
    · by_cases hp : p = k0
      · have hpk : ¬p = k := fun hc => h0 ((hp.symm.trans hc))
        simp [assocSet, List.lookup, h0, hpk, beq_of_eq_str hp]
      · by_cases hpk : p = k
        · subst hpk
          simp [assocSet, List.lookup, h0, ih, beq_false_of_ne_str hp]
        · simp [assocSet, List.lookup, h0, hpk, ih, beq_false_of_ne_str hp]

theorem FS.pathExists_write (fs : FS) (p q c : String) (h : fs.pathExists p = true) :
    (fs.write q c).pathExists p = true := by
  unfold FS.pathExists FS.write at *
  simp only [assocSet_lookup]
  by_cases hp : p = q
  · simp [hp]
  · simpa [hp] using h

theorem FS.pathExists_write_self (fs : FS) (q c : String) :
    (fs.write q c).pathExists q = true := by
  simp [FS.pathExists, FS.write, assocSet_lookup]

theorem download_daily_bars_fst_preserves (env : Env) (s fn : String)
    (apiKey : Option String) (fs : FS) (p : String) (h : fs.pathExists p = true) :
    (download_daily_bars env s fn apiKey fs).1.pathExists p = true := by
  unfold download_daily_bars
  rcases hdc : download_csv env s Frequency.day apiKey with e | bars
  · simpa using h
  · rcases hw : env.writeFails fn with _ | we
    · simpa using FS.pathExists_write fs p fn bars h
    · simpa using h

theorem download_weekly_bars_fst_preserves (env : Env) (s fn : String)
    (apiKey : Option String) (fs : FS) (p : String) (h : fs.pathExists p = true) :
    (download_weekly_bars env s fn apiKey fs).1.pathExists p = true := by
  unfold download_weekly_bars
  rcases hdc : download_csv env s Frequency.week apiKey with e | bars
  · simpa using h
  · rcases hw : env.writeFails fn with _ | we
    · simpa using FS.pathExists_write fs p fn bars h
    · simpa using h

theorem download_intradays_bars_fst_preserves (env : Env) (s fn : String) (fq : Frequency)
    (apiKey : Option String) (fs : FS) (p : String) (h : fs.pathExists p = true) :
    (download_intradays_bars env s fn fq apiKey fs).1.pathExists p = true := by
  unfold download_intradays_bars
  rcases hdc : download_csv env s fq apiKey with e | bars
  · simpa using h
  · rcases hw : env.writeFails fn with _ | we
    · simpa using FS.pathExists_write fs p fn bars h
    · simpa using h

theorem download_weekly_bars_ok_writes (env : Env) (s fn : String)
    (apiKey : Option String) (fs : FS)
    (h : (download_weekly_bars env s fn apiKey fs).2 = none) :
    (download_weekly_bars env s fn apiKey fs).1.pathExists fn = true := by
  unfold download_weekly_bars at h ⊢
  rcases hdc : download_csv env s Frequency.week apiKey with e | bars
  · rw [hdc] at h; simp at h
  · rw [hdc] at h
    rcases hw : env.writeFails fn with _ | we
    · simpa using FS.pathExists_write_self fs fn bars
    · rw [hw] at h; simp at h

theorem download_intradays_bars_ok_writes (env : Env) (s fn : String) (fq : Frequency)
    (apiKey : Option String) (fs : FS)
    (h : (download_intradays_bars env s fn fq apiKey fs).2 = none) :
    (download_intradays_bars env s fn fq apiKey fs).1.pathExists fn = true := by
  unfold download_intradays_bars at h ⊢
  rcases hdc : download_csv env s fq apiKey with e | bars
  · rw [hdc] at h; simp at h
  · rw [hdc] at h
    rcases hw : env.writeFails fn with _ | we
    · simpa using FS.pathExists_write_self fs fn bars
    · rw [hw] at h; simp at h

theorem try_block_day (env : Env) (s fn : String) (apiKey : Option String) (fs : FS) :
    build_feed_try_block env s fn Frequency.day apiKey fs =
      ⟨(download_daily_bars env s fn apiKey fs).1, 1,
       some ((download_daily_bars env s fn apiKey fs).2.getD "Invalid frequency")⟩ := by
  rcases hdl : download_daily_bars env s fn apiKey fs with ⟨fs1, err⟩
  unfold build_feed_try_block
  cases err <;> simp [hdl]

theorem try_block_week (env : Env) (s fn : String) (apiKey : Option String) (fs : FS) :
    build_feed_try_block env s fn Frequency.week apiKey fs =
      ⟨(download_weekly_bars env s fn apiKey fs).1, 1,
       (download_weekly_bars env s fn apiKey fs).2⟩ := by
  rcases hdl : download_weekly_bars env s fn apiKey fs with ⟨fs1, err⟩
  unfold build_feed_try_block
  simp [hdl]

theorem try_block_hour (env : Env) (s fn : String) (apiKey : Option String) (fs : FS) :
    build_feed_try_block env s fn Frequency.hour apiKey fs =
      ⟨(download_intradays_bars env s fn Frequency.hour apiKey fs).1, 1,
       (download_intradays_bars env s fn Frequency.hour apiKey fs).2⟩ := by
  rcases hdl : download_intradays_bars env s fn Frequency.hour apiKey fs with ⟨fs1, err⟩
  unfold build_feed_try_block
  simp [hdl]

theorem try_block_minute (env : Env) (s fn : String) (apiKey : Option String) (fs : FS) :
    build_feed_try_block env s fn Frequency.minute apiKey fs =
      ⟨(download_intradays_bars env s fn Frequency.minute apiKey fs).1, 1,
       (download_intradays_bars env s fn Frequency.minute apiKey fs).2⟩ := by
  rcases hdl : download_intradays_bars env s fn Frequency.minute apiKey fs with ⟨fs1, err⟩
  unfold build_feed_try_block
  simp [hdl]

theorem try_block_second (env : Env) (s fn : String) (apiKey : Option String) (fs : FS) :
    build_feed_try_block env s fn Frequency.second apiKey fs =
      ⟨fs, 0, some "Invalid frequency"⟩ := by
  unfold build_feed_try_block; simp

theorem try_block_month (env : Env) (s fn : String) (apiKey : Option String) (fs : FS) :
    build_feed_try_block env s fn Frequency.month apiKey fs =
      ⟨fs, 0, some "Invalid frequency"⟩ := by
  unfold build_feed_try_block; simp

theorem try_block_year (env : Env) (s fn : String) (apiKey : Option String) (fs : FS) :
    build_feed_try_block env s fn Frequency.year apiKey fs =
      ⟨fs, 0, some "Invalid frequency"⟩ := by
  unfold build_feed_try_block; simp



theorem try_block_week_calls (env : Env) (s fn : String) (apiKey : Option String)
    (fs : FS) :
    (build_feed_try_block env s fn Frequency.week apiKey fs).calls = 1 := by
  rw [try_block_week]

theorem try_block_fst_preserves (env : Env) (s fn : String) (fq : Frequency)
    (apiKey : Option String) (fs : FS) (p : String) (h : fs.pathExists p = true) :
    (build_feed_try_block env s fn fq apiKey fs).fs.pathExists p = true := by
  cases fq
  case second => rw [try_block_second]; exact h
  case minute => rw [try_block_minute]; exact download_intradays_bars_fst_preserves env s fn Frequency.minute apiKey fs p h
  case hour => rw [try_block_hour]; exact download_intradays_bars_fst_preserves env s fn Frequency.hour apiKey fs p h
  case day => rw [try_block_day]; exact download_daily_bars_fst_preserves env s fn apiKey fs p h
  case week => rw [try_block_week]; exact download_weekly_bars_fst_preserves env s fn apiKey fs p h
  case month => rw [try_block_month]; exact h
  case year => rw [try_block_year]; exact h

theorem try_block_ok_writes (env : Env) (s fn : String) (fq : Frequency)
    (apiKey : Option String) (fs : FS)
    (h : (build_feed_try_block env s fn fq apiKey fs).err = none) :
    (build_feed_try_block env s fn fq apiKey fs).fs.pathExists fn = true := by
  cases fq
  case second => rw [try_block_second] at h; simp at h
  case minute =>
    rw [try_block_minute] at h ⊢
    exact download_intradays_bars_ok_writes env s fn Frequency.minute apiKey fs h
  case hour =>
    rw [try_block_hour] at h ⊢
    exact download_intradays_bars_ok_writes env s fn Frequency.hour apiKey fs h
  case day => rw [try_block_day] at h; simp at h
  case week =>
    rw [try_block_week] at h ⊢
    exact download_weekly_bars_ok_writes env s fn apiKey fs h
  case month => rw [try_block_month] at h; simp at h
  case year => rw [try_block_year] at h; simp at h



theorem build_feed_loop_fst_preserves (env : Env) (storage : String) (fq : Frequency)
    (se : Bool) (apiKey : Option String) (fd smb : Bool) (p : String) :
    ∀ (symbols : List String) (ret : Feed) (fs : FS) (calls : Nat),
      fs.pathExists p = true →
      (build_feed_loop env storage fq se apiKey fd smb ret fs calls
          symbols).fs.pathExists p = true := by
  intro symbols
  induction symbols with
  | nil => intro ret fs calls h; simpa [build_feed_loop] using h
  | cons s rest ih =>
    intro ret fs calls h
    rcases hgb : (!fs.pathExists (build_feed_fileName storage s) || fd) with _ | _
    · rcases haddb : Feed.addBarsFromCSV env ret s (build_feed_fileName storage s) smb fs
          with e1 | ret1
      · simpa [build_feed_loop, hgb, haddb] using h
      · simp [build_feed_loop, hgb, haddb]
        exact ih ret1 fs _ h
    · have hstep := try_block_fst_preserves env s (build_feed_fileName storage s) fq
        apiKey fs p h
      rcases herr : (build_feed_try_block env s (build_feed_fileName storage s) fq apiKey
          fs).err with _ | e
      · rcases haddb : Feed.addBarsFromCSV env ret s (build_feed_fileName storage s) smb
            (build_feed_try_block env s (build_feed_fileName storage s) fq apiKey fs).fs
            with e1 | ret1
        · simpa [build_feed_loop, hgb, herr, haddb] using hstep
        · simp [build_feed_loop, hgb, herr, haddb]
          exact ih ret1 _ _ hstep
      · cases se
        · simpa [build_feed_loop, hgb, herr] using hstep
        · simp [build_feed_loop, hgb, herr]
          exact ih ret _ _ hstep

theorem build_feed_loop_cons_download (env : Env) (storage : String) (fq : Frequency)
    (se : Bool) (apiKey : Option String) (fd smb : Bool) (ret : Feed) (fs : FS)
    (calls : Nat) (s : String) (rest : List String)
    (hg : (!fs.pathExists (build_feed_fileName storage s) || fd) = true) :
    build_feed_loop env storage fq se apiKey fd smb ret fs calls (s :: rest) =
      match (build_feed_try_block env s (build_feed_fileName storage s) fq apiKey
          fs).err with
      | some e =>
        if se then
          build_feed_loop env storage fq se apiKey fd smb ret
            (build_feed_try_block env s (build_feed_fileName storage s) fq apiKey fs).fs
            (calls +
              (build_feed_try_block env s (build_feed_fileName storage s) fq apiKey
                fs).calls)
            rest
        else
          ⟨(build_feed_try_block env s (build_feed_fileName storage s) fq apiKey fs).fs,
           calls +
             (build_feed_try_block env s (build_feed_fileName storage s) fq apiKey
               fs).calls,
           Except.error e⟩
      | none =>
        match Feed.addBarsFromCSV env ret s (build_feed_fileName storage s) smb
            (build_feed_try_block env s (build_feed_fileName storage s) fq apiKey
              fs).fs with
        | Except.error e =>
          ⟨(build_feed_try_block env s (build_feed_fileName storage s) fq apiKey fs).fs,
           calls +
             (build_feed_try_block env s (build_feed_fileName storage s) fq apiKey
               fs).calls,
           Except.error e⟩
        | Except.ok ret1 =>
          build_feed_loop env storage fq se apiKey fd smb ret1
            (build_feed_try_block env s (build_feed_fileName storage s) fq apiKey fs).fs
            (calls +
              (build_feed_try_block env s (build_feed_fileName storage s) fq apiKey
                fs).calls)
            rest := by
  simp only [build_feed_loop, hg]
  simp

theorem build_feed_loop_cons_cached (env : Env) (storage : String) (fq : Frequency)
    (se : Bool) (apiKey : Option String) (fd smb : Bool) (ret : Feed) (fs : FS)
    (calls : Nat) (s : String) (rest : List String)
    (hg : (!fs.pathExists (build_feed_fileName storage s) || fd) = false) :
    build_feed_loop env storage fq se apiKey fd smb ret fs calls (s :: rest) =
      match Feed.addBarsFromCSV env ret s (build_feed_fileName storage s) smb fs with
      | Except.error e => ⟨fs, calls, Except.error e⟩
      | Except.ok ret1 => build_feed_loop env storage fq se apiKey fd smb ret1 fs calls
          rest := by
  simp only [build_feed_loop, hg]
  simp

theorem build_feed_loop_ok_files (env : Env) (storage : String) (fq : Frequency)
    (apiKey : Option String) (fd smb : Bool) :
    ∀ (symbols : List String) (ret : Feed) (fs : FS) (calls : Nat),
      (build_feed_loop env storage fq false apiKey fd smb ret fs calls
          symbols).result.isOk = true →
      ∀ s0 ∈ symbols,
        (build_feed_loop env storage fq false apiKey fd smb ret fs calls
            symbols).fs.pathExists (build_feed_fileName storage s0) = true := by
  intro symbols
  induction symbols with
  | nil => intro ret fs calls _ s0 hs0; simp at hs0
  | cons s rest ih =>
    intro ret fs calls hok s0 hs0
    rcases hgb : (!fs.pathExists (build_feed_fileName storage s) || fd) with _ | _
    · rw [build_feed_loop_cons_cached env storage fq false apiKey fd smb ret fs calls s
        rest hgb] at hok ⊢
      have hg2 := hgb
      simp at hg2
      rcases haddb : Feed.addBarsFromCSV env ret s (build_feed_fileName storage s) smb fs
          with e1 | ret1
      · rw [haddb] at hok
        simp [Except.isOk, Except.toBool] at hok
      · rw [haddb] at hok
        rcases List.mem_cons.mp hs0 with rfl | hs1
        · exact build_feed_loop_fst_preserves env storage fq false apiKey fd smb _ rest
            ret1 fs calls hg2.1
        · exact ih ret1 fs calls hok s0 hs1
    · rw [build_feed_loop_cons_download env storage fq false apiKey fd smb ret fs calls s
        rest hgb] at hok ⊢
      rcases herr : (build_feed_try_block env s (build_feed_fileName storage s) fq apiKey
          fs).err with _ | e
      · rw [herr] at hok
        have hwrite := try_block_ok_writes env s (build_feed_fileName storage s) fq
          apiKey fs herr
        rcases haddb : Feed.addBarsFromCSV env ret s (build_feed_fileName storage s) smb
            (build_feed_try_block env s (build_feed_fileName storage s) fq apiKey fs).fs
            with e1 | ret1
        · rw [haddb] at hok
          simp [Except.isOk, Except.toBool] at hok
        · rw [haddb] at hok
          rcases List.mem_cons.mp hs0 with rfl | hs1
          · exact build_feed_loop_fst_preserves env storage fq false apiKey fd smb _ rest
              ret1 _ _ hwrite
          · exact ih ret1 _ _ hok s0 hs1
      · rw [herr] at hok
        simp [Except.isOk, Except.toBool] at hok

theorem build_feed_loop_cached_calls (env : Env) (storage : String) (fq : Frequency)
    (se : Bool) (apiKey : Option String) (smb : Bool) :
    ∀ (symbols : List String) (ret : Feed) (fs : FS) (calls : Nat),
      (∀ s0 ∈ symbols, fs.pathExists (build_feed_fileName storage s0) = true) →
      (build_feed_loop env storage fq se apiKey false smb ret fs calls symbols).calls =
        calls := by
  intro symbols
  induction symbols with
  | nil => intro ret fs calls _; simp [build_feed_loop]
  | cons s rest ih =>
    intro ret fs calls hall
    have hx : fs.pathExists (build_feed_fileName storage s) = true :=
      hall s (List.mem_cons_self s rest)
    have hgb : (!fs.pathExists (build_feed_fileName storage s) || false) = false := by
      simp [hx]
    rw [build_feed_loop_cons_cached env storage fq se apiKey false smb ret fs calls s
      rest hgb]
    rcases haddb : Feed.addBarsFromCSV env ret s (build_feed_fileName storage s) smb fs
        with e1 | ret1
    · rfl
    · exact ih ret1 fs calls (fun s0 hs0 => hall s0 (List.mem_cons_of_mem s hs0))



theorem pathExists_mkdir (fs : FS) (storage p : String) :
    (if fs.dirs.contains storage then fs
     else { fs with dirs := storage :: fs.dirs }).pathExists p = fs.pathExists p := by
  split <;> rfl

theorem build_feed_loop_week_single_calls (env : Env) (storage : String) (se : Bool)
    (apiKey : Option String) (fd smb : Bool) (ret : Feed) (fs : FS) (calls : Nat)
    (s : String) :
    (build_feed_loop env storage Frequency.week se apiKey fd smb ret fs calls
        [s]).calls =
      calls +
        (if (!fs.pathExists (build_feed_fileName storage s) || fd) = true then 1
         else 0) := by
  rcases hgb : (!fs.pathExists (build_feed_fileName storage s) || fd) with _ | _
  · rw [build_feed_loop_cons_cached env storage Frequency.week se apiKey fd smb ret fs
      calls s [] hgb]
    rcases haddb : Feed.addBarsFromCSV env ret s (build_feed_fileName storage s) smb fs
        with e1 | ret1
    · simp
    · simp [build_feed_loop]
  · rw [build_feed_loop_cons_download env storage Frequency.week se apiKey fd smb ret fs
      calls s [] hgb]
    rcases herr : (build_feed_try_block env s (build_feed_fileName storage s)
        Frequency.week apiKey fs).err with _ | e
    · rcases haddb : Feed.addBarsFromCSV env ret s (build_feed_fileName storage s) smb
          (build_feed_try_block env s (build_feed_fileName storage s) Frequency.week
            apiKey fs).fs with e1 | ret1
      · simp [try_block_week_calls]
      · simp [build_feed_loop, try_block_week_calls]
    · cases se <;> simp [build_feed_loop, try_block_week_calls]

theorem build_feed_ok_files (env : Env) (symbols : List String) (storage : String)
    (fromDate toDate : Option Int) (frequency : Frequency) (apiKey : Option String)
    (cols : List (String × Option String)) (fd smb : Bool) (fs : FS)
    (h : (build_feed env symbols storage fromDate toDate frequency false apiKey cols fd
        smb fs).result.isOk = true) :
    ∀ s0 ∈ symbols,
      (build_feed env symbols storage fromDate toDate frequency false apiKey cols fd smb
          fs).fs.pathExists (build_feed_fileName storage s0) = true := by
  rcases hinit : Feed.init frequency with e | ret0
  · simp [build_feed, hinit, Except.isOk, Except.toBool] at h
  · simp only [build_feed, hinit] at h ⊢
    intro s0 hs0
    exact build_feed_loop_ok_files env storage frequency apiKey fd smb symbols _ _ _ h
      s0 hs0

theorem build_feed_cached_calls (env : Env) (symbols : List String) (storage : String)
    (fromDate toDate : Option Int) (frequency : Frequency) (se : Bool)
    (apiKey : Option String) (cols : List (String × Option String)) (smb : Bool)
    (fs : FS)
    (h : ∀ s0 ∈ symbols, fs.pathExists (build_feed_fileName storage s0) = true) :
    (build_feed env symbols storage fromDate toDate frequency se apiKey cols false smb
        fs).calls = 0 := by
  rcases hinit : Feed.init frequency with e | ret0
  · simp [build_feed, hinit]
  · simp only [build_feed, hinit]
    refine build_feed_loop_cached_calls env storage frequency se apiKey smb symbols _ _ 0
      ?_
    intro s0 hs0
    rw [pathExists_mkdir]
    exact h s0 hs0

/-- C6: `build_feed` performs a download for a symbol iff the cache file at
the resolved path does not exist or forceDownload is set (stated as the
exact number of HTTP requests a single-symbol WEEK build issues);
consequently, when a run with skipErrors=false and forceDownload=false
completes successfully, re-running `build_feed` with the same arguments on
the resulting filesystem issues zero network calls. -/
theorem C6_download_iff_cache_miss :
    (∀ (env : Env) (storage s : String) (se : Bool) (apiKey : Option String)
       (fd smb : Bool) (fromDate toDate : Option Int)
       (cols : List (String × Option String)) (fs : FS),
       (build_feed env [s] storage fromDate toDate Frequency.week se apiKey cols fd smb
           fs).calls =
         if (!fs.pathExists (build_feed_fileName storage s) || fd) = true then 1
         else 0) ∧
    (∀ (env : Env) (symbols : List String) (storage : String)
       (fromDate toDate : Option Int) (frequency : Frequency) (apiKey : Option String)
       (cols : List (String × Option String)) (smb : Bool) (fs : FS),
       (build_feed env symbols storage fromDate toDate frequency false apiKey cols false
           smb fs).result.isOk = true →
       (build_feed env symbols storage fromDate toDate frequency false apiKey cols false
           smb
           (build_feed env symbols storage fromDate toDate frequency false apiKey cols
             false smb fs).fs).calls = 0) := by
  constructor
  · intro env storage s se apiKey fd smb fromDate toDate cols fs
    rcases hinit : Feed.init Frequency.week with e | ret0
    · have hko : (Feed.init Frequency.week).isOk = true := by decide
      rw [hinit] at hko
      simp [Except.isOk, Except.toBool] at hko
    · simp only [build_feed, hinit]
      rw [build_feed_loop_week_single_calls, pathExists_mkdir]
      simp
  · intro env symbols storage fromDate toDate frequency apiKey cols smb fs h
    apply build_feed_cached_calls
    intro s0 hs0
    exact build_feed_ok_files env symbols storage fromDate toDate frequency apiKey cols
      false smb fs h s0 hs0

/-- C6 witness. -/
theorem C6_download_iff_cache_miss_witness :
    ((build_feed envOK ["ORCL"] "data" none none Frequency.week false none [] false false
        fs0).result.isOk = true) ∧
    (build_feed envOK ["ORCL"] "data" none none Frequency.week false none [] false false
        (build_feed envOK ["ORCL"] "data" none none Frequency.week false none [] false
          false fs0).fs).calls = 0 :=
  ⟨by decide,
   C6_download_iff_cache_miss.2 envOK ["ORCL"] "data" none none Frequency.week none []
     false fs0 (by decide)⟩

end AlphaVantage
